import Mathlib

/-!
Verification of the `urjamitra` repository (solar-energy and carbon-footprint
demo pipelines) against its natural-language specification.

The Python sources are shallowly embedded as executable Lean definitions:
pure computations become Lean functions, the external LLM / HTTP calls are
abstracted as explicit oracle parameters (an outcome per candidate model),
numeric values computed by the carbon pipeline are modelled over `ℚ`
(Python's `round` half-even tie-breaking is embedded exactly), and Python
exceptions are modelled by explicit result constructors.
-/

namespace Urjamitra

/-! ### Regex extraction in `GeminiClient.generate_content`

`Gemini_API_Client.py` (lines 79-88) extracts solar watts and battery
percentage from the prompt with
`re.search(r'Solar Panel Production: (\d+) Watts', prompt)` and
`re.search(r'Current Battery Charge: (\d+)%', prompt)`.

Because in both patterns the text after the digit group starts with a
non-digit character (a space resp. `%`), the greedy `(\d+)` with
backtracking matches at a position iff the maximal digit run after the
literal prefix is nonempty and is followed by the suffix text; the captured
group is then that maximal run.  `matchAt` embeds this per-position test and
`searchNumBetween` embeds `re.search`'s leftmost-position scan. -/

/-- Numeric value of a digit string, as Python `int()` computes it on the
captured `\d+` group. -/
def digitsToNat (l : List Char) : Nat :=
  l.foldl (fun n c => n * 10 + (c.toNat - '0'.toNat)) 0

/-- Attempt to match `lit ++ (\d+) ++ suf` at the start of `s`; returns the
numeric value of the digit group on success. -/
def matchAt (lit suf : List Char) (s : List Char) : Option Nat :=
  if lit.isPrefixOf s then
    let after := s.drop lit.length
    let ds := after.takeWhile Char.isDigit
    if ds.isEmpty then none
    else if suf.isPrefixOf (after.drop ds.length) then some (digitsToNat ds)
    else none
  else none

/-- `re.search` for the pattern `lit ++ (\d+) ++ suf`: try every position
left to right, return the first match's digit group. -/
def searchNumBetween (lit suf : List Char) : List Char → Option Nat
  | [] => none
  | a :: t =>
    match matchAt lit suf (a :: t) with
    | some n => some n
    | none => searchNumBetween lit suf t

/-- `re.search(r'Solar Panel Production: (\d+) Watts', prompt)` with the
captured group converted by `int`. -/
def extractSolar (prompt : String) : Option Nat :=
  searchNumBetween "Solar Panel Production: ".toList " Watts".toList prompt.toList

/-- `re.search(r'Current Battery Charge: (\d+)%', prompt)` with the captured
group converted by `int`. -/
def extractBattery (prompt : String) : Option Nat :=
  searchNumBetween "Current Battery Charge: ".toList "%".toList prompt.toList

/-! ### `GeminiClient._get_simulated_response`

The simulated plan built at `Gemini_API_Client.py` lines 92-155.  The local
variables `period`, `power_source_heavy`, `recommendation` and
`battery_advice` of the source are factored out as named functions; numeric
inputs are `Int` (the call sites settled here pass Python ints: the regex
defaults `0`/`50` or parsed integers), rendered in strings via `toString`,
which agrees with Python `str` on ints. -/

def simPeriod (solar_watts : Int) : String :=
  if 2000 < solar_watts then "Peak Sun (High Production)"
  else if 500 < solar_watts then "Moderate Sun"
  else if 100 < solar_watts then "Low Sun"
  else "Night/No Sun"

def simPowerSourceHeavy (solar_watts : Int) : String :=
  if 2000 < solar_watts then "Direct Solar"
  else if 500 < solar_watts then "Direct Solar"
  else if 100 < solar_watts then "Battery"
  else "Battery"

def simRecommendation (solar_watts : Int) : String :=
  if 2000 < solar_watts then
    "Excellent time for high-power appliances. Run water heater and washing machine now."
  else if 500 < solar_watts then
    "Good time for medium-power appliances. Save heavy tasks if possible."
  else if 100 < solar_watts then
    "Transition to battery power. Minimize non-essential usage."
  else
    "Use only essential appliances. Preserve battery for overnight needs."

def simBatteryAdvice (battery_pct : Int) : String :=
  if 80 < battery_pct then "Battery well charged. Can support high-power loads if needed."
  else if 50 < battery_pct then "Battery at moderate level. Monitor usage and prioritize essentials."
  else "Battery getting low. Conserve power and avoid non-essential appliances."

/-- One entry of the `energy_allocation_plan` list. -/
structure PlanEntry where
  appliance : String
  time_to_run : String
  power_source : String
  priority : String
deriving DecidableEq, Repr

/-- The JSON plan object placed in the simulated response's text part. -/
structure SimPlan where
  recommendation_summary : String
  energy_allocation_plan : List PlanEntry
  battery_management : String
  alerts : List String
deriving DecidableEq, Repr

/-- `GeminiClient._get_simulated_response(solar_watts, battery_pct)`:
the plan JSON built by `json.dumps` at lines 125-153 of the source. -/
def get_simulated_response (solar_watts battery_pct : Int) : SimPlan :=
  let period := simPeriod solar_watts
  let power_source_heavy := simPowerSourceHeavy solar_watts
  let recommendation := simRecommendation solar_watts
  let battery_advice := simBatteryAdvice battery_pct
  { recommendation_summary :=
      recommendation ++ " Current conditions: " ++ period ++ ", Battery: " ++
        toString battery_pct ++ "%"
    energy_allocation_plan :=
      [ ⟨"Refrigerator", "24/7", "Solar/Battery", "Essential"⟩,
        ⟨"Lights (LED x5)", "As needed",
          if solar_watts < 100 then "Battery" else "Solar", "Essential"⟩,
        ⟨"Water Heater", "During peak sun if available", power_source_heavy, "High"⟩,
        ⟨"Washing Machine", "When solar > 2000W", power_source_heavy, "Medium"⟩,
        ⟨"Television", "Evening (limited use)", "Battery", "Low"⟩,
        ⟨"Laptop Charger", "Daytime preferred",
          if 100 < solar_watts then "Solar" else "Battery", "Medium"⟩ ]
    battery_management :=
      battery_advice ++ " Current solar: " ++ toString solar_watts ++ "W. " ++
        (if 1000 < solar_watts then "Charge mode active"
         else "Conservation mode - discharge minimally") ++ "."
    alerts :=
      [ "Current solar production: " ++ toString solar_watts ++ "W",
        "Battery level: " ++ toString battery_pct ++ "%",
        if 0 ≤ solar_watts then "Demo mode active - simulated AI responses" else "" ] }

/-! ### `GeminiClient.generate_content`

Lines 55-90 of `Gemini_API_Client.py`.  The HTTP layer is abstracted by an
oracle `net : String → CandidateResult β` giving, per candidate model name,
either an HTTP response (status code plus already-decoded body) or a
transport-level `requests.exceptions.RequestException`.  Every exception
path in the source is caught (`RequestException` per candidate, a bare
`except` around both the diagnostic printing and the regex extraction), so
the embedding is a total function: `generate_content` never raises to its
caller.  The returned pair records the candidates actually attempted, in
order, together with the outcome. -/

/-- Outcome of `requests.post` for one candidate model. -/
inductive CandidateResult (β : Type) where
  | response (statusCode : Nat) (body : β)
  | requestException
deriving DecidableEq, Repr

/-- Outcome of `generate_content`: the decoded body of a successful
candidate, or the simulated plan. -/
inductive GenContentResult (β : Type) where
  | api (body : β)
  | simulated (plan : SimPlan)
deriving DecidableEq, Repr

/-- The fixed candidate list `models_to_try` (lines 34-38). -/
def models_to_try : List String :=
  ["gemini-1.5-flash", "gemini-1.5-pro", "gemini-pro"]

/-- The `for model in models_to_try` loop (lines 55-90): status 200 returns
that candidate's body; status 429 short-circuits to
`_get_simulated_response()` *with the default arguments* `(0, 50)`; any
other status or a `RequestException` advances; after the loop the prompt is
parsed (defaults `0` and `50`) and fed to `_get_simulated_response`. -/
def tryModels (net : String → CandidateResult β) (prompt : String) :
    List String → List String × GenContentResult β
  | [] =>
    ([], .simulated (get_simulated_response
        ((extractSolar prompt).elim 0 Int.ofNat)
        ((extractBattery prompt).elim 50 Int.ofNat)))
  | m :: rest =>
    match net m with
    | .response statusCode body =>
      if statusCode = 200 then ([m], .api body)
      else if statusCode = 429 then ([m], .simulated (get_simulated_response 0 50))
      else
        let r := tryModels net prompt rest
        (m :: r.1, r.2)
    | .requestException =>
      let r := tryModels net prompt rest
      (m :: r.1, r.2)

/-- `GeminiClient.generate_content(prompt)` under network oracle `net`. -/
def generate_content (net : String → CandidateResult β) (prompt : String) :
    List String × GenContentResult β :=
  tryModels net prompt models_to_try

example : extractSolar "Solar Panel Production: 3500 Watts" = some 3500 := by decide
example : extractSolar "Solar Panel Production: 3500.0 Watts" = none := by decide
example : extractBattery "x Current Battery Charge: 75% y" = some 75 := by decide

/-! ### Python `round` over `ℚ`

`FootprintEstimator._calculate_from_components` applies Python's
`round(x, 4)`.  Python `round` rounds to the nearest value and breaks exact
ties to the even candidate (banker's rounding); that is embedded exactly
over `ℚ`. -/

/-- Python `round(x)` on a rational: nearest integer, ties to even. -/
def bankersRound (x : ℚ) : ℤ :=
  if Int.fract x < 1 / 2 then ⌊x⌋
  else if 1 / 2 < Int.fract x then ⌊x⌋ + 1
  else if ⌊x⌋ % 2 = 0 then ⌊x⌋ else ⌊x⌋ + 1

/-- Python `round(x, 4)` on a rational. -/
def round4 (x : ℚ) : ℚ :=
  (bankersRound (x * 10000) : ℚ) / 10000

/-! ### `FootprintEstimator` (`FootprintEstimator.py`)

`_calculate_from_components` (lines 36-55) and `estimate` (lines 95-167).
The Gemini breakdown call `_breakdown_total_co2e` is abstracted by an
oracle `BreakdownOutcome`: either the model produced a text whose cleaned
form parses (`cleanedText (some c)`, keys possibly missing), produced an
unparsable text (`cleanedText none`, the `json.JSONDecodeError` case), or
the call itself raised (network failure inside
`self.model.generate_content` or `AttributeError` on `response.text`, both
outside the `try` block of `estimate`, hence uncaught). -/

/-- The result JSON of `_calculate_from_components`. -/
structure CalcResult where
  total_co2e_kg : ℚ
  production : ℚ
  packaging : ℚ
  transport : ℚ
  formula : String
deriving DecidableEq, Repr

/-- `FootprintEstimator._calculate_from_components` (lines 36-55). -/
def calculate_from_components (production_impact packaging_impact transport_impact : ℚ) :
    CalcResult :=
  let total_co2e := production_impact + packaging_impact + transport_impact
  { total_co2e_kg := round4 total_co2e
    production := round4 production_impact
    packaging := round4 packaging_impact
    transport := round4 transport_impact
    formula := "Total = Production + Packaging + Transport" }

/-- A parsed components dictionary; each key optional, read with
`.get(key, 0)` in the source. -/
structure ComponentsDict where
  production_impact : Option ℚ
  packaging_impact : Option ℚ
  transport_impact : Option ℚ
deriving DecidableEq, Repr

/-- The retrieval record fed to `estimate`.  The source tests
`'components' in retrieval_data` first and `'co2e_kg' in retrieval_data`
second; the constructor chosen encodes which of those key tests succeeds
first. -/
inductive RetrievalData where
  | withComponents (canonical_name : Option String) (components : ComponentsDict)
  | withTotal (canonical_name : Option String) (co2e_kg : ℚ) (source : Option String)
  | neither
deriving DecidableEq, Repr

/-- Oracle for `_breakdown_total_co2e`'s interaction with Gemini. -/
inductive BreakdownOutcome where
  | cleanedText (parsed : Option ComponentsDict)
  | raised
deriving DecidableEq, Repr

/-- The dictionary returned by `estimate` on its success paths (the
`notes` key is absent on the components path and present on both
model-breakdown paths). -/
structure FootprintEstimate where
  total_co2e_kg : ℚ
  production : ℚ
  packaging : ℚ
  transport : ℚ
  formula : String
  notes : Option String
deriving DecidableEq, Repr

/-- Observable outcome of `FootprintEstimator.estimate`: a success
dictionary, the explicit `{"error": ...}` dictionary returned when neither
shape key is present, or an uncaught exception propagating past the stage. -/
inductive EstimateOutput where
  | ok (e : FootprintEstimate)
  | errorDict (msg : String)
  | raised
deriving DecidableEq, Repr

/-- Package a `CalcResult` with a `notes` value. -/
def withNotes (r : CalcResult) (notes : Option String) : FootprintEstimate :=
  ⟨r.total_co2e_kg, r.production, r.packaging, r.transport, r.formula, notes⟩

/-- `FootprintEstimator.estimate` (lines 95-167) under breakdown oracle `m`. -/
def estimate (m : BreakdownOutcome) (rd : RetrievalData) : EstimateOutput :=
  match rd with
  | .withComponents _ components =>
    .ok (withNotes
      (calculate_from_components
        (components.production_impact.getD 0)
        (components.packaging_impact.getD 0)
        (components.transport_impact.getD 0)) none)
  | .withTotal _ total_co2e _ =>
    match m with
    | .raised => .raised
    | .cleanedText (some estimated_components) =>
      .ok (withNotes
        (calculate_from_components
          (estimated_components.production_impact.getD 0)
          (estimated_components.packaging_impact.getD 0)
          (estimated_components.transport_impact.getD 0))
        (some "Component breakdown was estimated by AI."))
    | .cleanedText none =>
      .ok (withNotes
        (calculate_from_components
          (total_co2e * (70 / 100))
          (total_co2e * (20 / 100))
          (total_co2e * (10 / 100)))
        (some "Component breakdown used fallback percentages due to parsing error."))
  | .neither =>
    .errorDict "Input data has neither 'components' nor 'co2e_kg'."

/-! ### `EntityStandardizer.standardize_json` (`EntityStandardizer.py` lines 45-82)

The Gemini call plus JSON parse is abstracted by `GenaiOutcome`: the model
replied and the cleaned text parsed (with each required key optional), the
cleaned text failed to parse (`json.JSONDecodeError`) or `response.text`
raised (`AttributeError`) — both caught by the first `except` — or some
other exception occurred (caught by the final `except Exception`). -/

/-- Parsed standardization JSON, each required key optionally present. -/
structure ParsedStd where
  canonical_name : Option String
  category : Option String
deriving DecidableEq, Repr

/-- Oracle for the standardizer's model call and parse. -/
inductive GenaiOutcome where
  | responseText (parsed : Option ParsedStd)
  | attributeError
  | otherError
deriving DecidableEq, Repr

/-- The dictionary returned by `standardize_json`. -/
structure StdResult where
  canonical_name : String
  category : String
deriving DecidableEq, Repr

/-- `EntityStandardizer.standardize_json` under outcome `o`: missing keys
raise `ValueError`, caught together with parse errors by
`except (json.JSONDecodeError, AttributeError, ValueError)` which returns
the sentinel; any other exception returns the `"API call failed"` record. -/
def standardize_json (o : GenaiOutcome) : StdResult :=
  match o with
  | .responseText (some p) =>
    match p.canonical_name, p.category with
    | some n, some c => ⟨n, c⟩
    | _, _ => ⟨"Error processing JSON", "Error"⟩
  | .responseText none => ⟨"Error processing JSON", "Error"⟩
  | .attributeError => ⟨"Error processing JSON", "Error"⟩
  | .otherError => ⟨"API call failed", "Error"⟩

/-! ### Knowledge retrieval

`KnowledgeRetriever.py` defines the three tools; the pipeline actually
served (`master_automation.py` lines 104-128, also reached from
`api_server.py`) inlines a simplified layer 3 that checks the hard-coded
web-scrape match and otherwise uses the category fallback with generic
default `5.0` — it never consults the internal database. -/

/-- Python `str.lower()`; all names compared by the retrieval code are
ASCII, on which `Char.toLower` agrees with Python's per-character
lowercasing. -/
def pyLower (s : String) : String :=
  ⟨s.data.map Char.toLower⟩

/-- `MOCK_INTERNAL_DATABASE` (`KnowledgeRetriever.py` lines 12-23). -/
def MOCK_INTERNAL_DATABASE : List (String × ℚ × String × String) :=
  [ ("coca-cola, 0.5l, pet bottle", (17 / 100, "Internal DB (EcoInvent)", "High")),
    ("t-shirt, cotton, blue, large", (68 / 10, "Internal DB (OpenApparel)", "High")) ]

/-- `MOCK_CATEGORY_FALLBACKS` (`KnowledgeRetriever.py` lines 26-33). -/
def MOCK_CATEGORY_FALLBACKS : List (String × ℚ) :=
  [ ("Food", 15 / 10), ("Beverage", 5 / 10), ("Clothing", 7),
    ("Electronics", 25), ("Flights", 115 / 1000), ("Other", 5) ]

/-- Contiguous-sublist test, scanning left to right. -/
def listContains (needle : List Char) : List Char → Bool
  | [] => needle.isEmpty
  | a :: t => needle.isPrefixOf (a :: t) || listContains needle t

/-- Python `needle in haystack` on strings. -/
def strContains (haystack needle : String) : Bool :=
  listContains needle.toList haystack.toList

/-- `KnowledgeRetriever._lookup_internal_database`: case-insensitive exact
lookup; `none` models the `{"error": ...}` not-found JSON. -/
def lookup_internal_database (canonical_name : String) : Option (ℚ × String × String) :=
  (MOCK_INTERNAL_DATABASE.find? (fun p => p.1 == (pyLower canonical_name))).map Prod.snd

/-- `KnowledgeRetriever._search_web_for_footprint_data`: hard-coded
substring match; `none` models the `{"error": ...}` not-found JSON. -/
def search_web_for_footprint_data (canonical_name : String) : Option (ℚ × String × String) :=
  if strContains (pyLower canonical_name) "lay\x27s classic potato chips" then
    some (75 / 1000, "Simulated Web Scrape (GoodFood Institute Report)", "Medium")
  else none

/-- `KnowledgeRetriever._use_category_fallback_heuristic`: table lookup on
the exact category string; `none` models the `{"error": ...}` JSON returned
for an unrecognized category (this tool has no generic default). -/
def use_category_fallback_heuristic (category : String) : Option (ℚ × String × String) :=
  (MOCK_CATEGORY_FALLBACKS.find? (fun p => p.1 == category)).map
    (fun p => (p.2, "Category Fallback Heuristic", "Low"))

/-- A layer-3 result record of `master_automation.py`. -/
structure Layer3Result where
  canonical_name : String
  category : String
  co2e_kg : ℚ
  source : String
  confidence : String
deriving DecidableEq, Repr

/-- The knowledge-retrieval step actually run by the pipeline
(`master_automation.py` lines 104-128): hard-coded web-substring check,
else category fallback via `fallback_values.get(category, 5.0)`. -/
def layer3Retrieve (canonical_name category : String) : Layer3Result :=
  if strContains (pyLower canonical_name) "lay\x27s classic potato chips" then
    { canonical_name := canonical_name, category := category
      co2e_kg := 75 / 1000
      source := "Simulated Web Scrape (GoodFood Institute Report)"
      confidence := "Medium" }
  else
    { canonical_name := canonical_name, category := category
      co2e_kg := ((MOCK_CATEGORY_FALLBACKS.find? (fun p => p.1 == category)).map Prod.snd).getD 5
      source := "Category Fallback Heuristic"
      confidence := "Low" }

/-! The agentic loop of `KnowledgeRetriever.run_agentic_loop`
(lines 112-174): the Gemini planner chooses which tool to call; the Python
code executes whichever tool the planner names and feeds the output back,
until the planner answers with text.  The planner is abstracted as a
function of the executed history; the `while` loop gets explicit fuel
(the source loops unboundedly on the planner's choices). -/

/-- A tool invocation the planner can request. -/
inductive ToolCall where
  | lookupDB (canonical_name : String)
  | webSearch (canonical_name : String)
  | categoryFallback (category : String)
deriving DecidableEq, Repr

/-- A tool's output: a footprint record or the error JSON's message. -/
inductive ToolOutput where
  | ok (co2e_kg : ℚ) (source confidence : String)
  | error (msg : String)
deriving DecidableEq, Repr

/-- The Executor dispatch (lines 147-155). -/
def executeTool : ToolCall → ToolOutput
  | .lookupDB n =>
    match lookup_internal_database n with
    | some (c, s, cf) => .ok c s cf
    | none => .error "Product not found in the internal database."
  | .webSearch n =>
    match search_web_for_footprint_data n with
    | some (c, s, cf) => .ok c s cf
    | none => .error "Could not find reliable footprint data from web search."
  | .categoryFallback cat =>
    match use_category_fallback_heuristic cat with
    | some (c, s, cf) => .ok c s cf
    | none => .error ("Category \x27" ++ cat ++ "\x27 has no fallback value.")

/-- A planner reply: another tool call, or final text. -/
inductive PlannerReply where
  | call (tc : ToolCall)
  | text (s : String)
deriving DecidableEq, Repr

/-- `run_agentic_loop`'s while loop: execute the planner's chosen tools
until it answers with text; returns the executed trace (in order) and the
final text, or `none` when the fuel runs out. -/
def runAgenticLoop (planner : List (ToolCall × ToolOutput) → PlannerReply) :
    Nat → List (ToolCall × ToolOutput) → Option (List (ToolCall × ToolOutput) × String)
  | 0, _ => none
  | fuel + 1, history =>
    match planner history with
    | .text s => some (history.reverse, s)
    | .call tc => runAgenticLoop planner fuel ((tc, executeTool tc) :: history)

/-! ### `SolarEnergyAgent._create_prompt` (`Solar_Energy_AI_Agent.py` lines 22-58)

The f-string template, after the final `.strip()`, as a function of the
rendered interpolations: `current_time`, `{solar_production_watts}`,
`{self.battery_capacity_wh}`, `{battery_percentage}`, `{battery_wh:.2f}`,
`json.dumps(self.appliances, indent=2)` and
`json.dumps(self.energy_log[-3:], indent=2)`.  Interior line indentation
(8 spaces) and trailing spaces of the source template are reproduced
byte-for-byte; two template literals are split (without changing the
resulting string) exactly at the start of the regex literals
"Solar Panel Production: " and "Current Battery Charge: ", so that the
prompt decomposes syntactically around them. -/

def create_prompt (current_time solarStr capacityStr batteryStr batteryWhStr
    appliancesJson logJson : String) : String :=
  "Act as an expert AI Solar Energy Management Agent.\n        \n        Current State at "
    ++ current_time
    ++ ":\n        - "
    ++ "Solar Panel Production: "
    ++ solarStr
    ++ " Watts\n        - Battery Capacity: "
    ++ capacityStr
    ++ " Wh\n        - "
    ++ "Current Battery Charge: "
    ++ batteryStr
    ++ "% ("
    ++ batteryWhStr
    ++ " Wh)\n\n        List of available electrical appliances and their power draw:\n        "
    ++ appliancesJson
    ++ "\n\n        Previous Energy Log (last 3 entries):\n        "
    ++ logJson
    ++ "\n\n        Task:\n        Provide a detailed energy management plan in a structured JSON format. \n        \n        IMPORTANT: Respond ONLY with valid JSON, no other text or explanations.\n        \n        The JSON should include:\n        1.  `recommendation_summary`: A brief, actionable summary.\n        2.  `energy_allocation_plan`: A list of dictionaries, where each dictionary contains `appliance`, `time_to_run`, `power_source` (Direct Solar or Battery), and `priority` (Essential, High, Medium, Low).\n        3.  `battery_management`: Specific instructions on when to charge or discharge the battery.\n        4.  `alerts`: Any important alerts for the user (e.g., \"Low production forecast\", \"Excess energy available\").\n        \n        Prioritize running high-power appliances directly from solar during peak production.\n        Use the battery for essential loads when solar production is low or at night.\n        Ensure the battery is preserved for essential needs."

/-- `json.dumps` of the default appliance table installed by
`solar_api_server.initialize_agent` (lines 37-45), `indent=2`. -/
def defaultAppliancesJson : String :=
  "\x7b\n  \"Refrigerator\": 200,\n  \"Lights (LED x5)\": 50,\n  \"Television\": 150,\n  \"Washing Machine\": 2000,\n  \"Water Heater\": 3000,\n  \"Laptop Charger\": 65\n\x7d"

/-- `json.dumps` of the one-entry energy log present when
`track_and_advise` builds its first prompt (the entry appended at lines
69-74 before `_create_prompt` is called), `indent=2`; float inputs render
with a decimal point. -/
def sampleLogJson : String :=
  "[\n  \x7b\n    \"timestamp\": \"2025-01-01T12:00:00.000000\",\n    \"solar_production_watts\": 3500.0,\n    \"battery_percentage\": 75.0\n  \x7d\n]"

/-- The prompt a `POST /api/solar/analyze` request with
`solar_production=3500`, `battery_percentage=75` produces: the endpoint
(`solar_api_server.py` lines 107-110) coerces both to `float`, so the
f-string renders them as `3500.0` and `75.0`;
`battery_wh = 10000 * 75.0 / 100` renders as `7500.00` under `:.2f`. -/
def samplePrompt (solarStr batteryStr : String) : String :=
  create_prompt "2025-01-01 12:00:00" solarStr "10000" batteryStr "7500.00"
    defaultAppliancesJson sampleLogJson

/-! ## Helper lemmas -/

/-- A candidate outcome on which the `generate_content` loop advances to the
next candidate: any non-200, non-429 status, or a transport error. -/
def candidateFails (r : CandidateResult β) : Bool :=
  match r with
  | .response statusCode _ => decide (statusCode ≠ 200) && decide (statusCode ≠ 429)
  | .requestException => true

/-- When every candidate in `ms` fails without a 429, the loop attempts all
of them in order and falls back to the prompt-parsed simulated response. -/
theorem tryModels_allFail {β : Type} (net : String → CandidateResult β) (prompt : String)
    (ms : List String) (h : ∀ m ∈ ms, candidateFails (net m) = true) :
    tryModels net prompt ms =
      (ms, .simulated (get_simulated_response
        ((extractSolar prompt).elim 0 Int.ofNat)
        ((extractBattery prompt).elim 50 Int.ofNat))) := by
  induction ms with
  | nil => rfl
  | cons m rest ih =>
    have hm := h m (List.mem_cons_self m rest)
    have hrest := ih (fun x hx => h x (List.mem_cons_of_mem m hx))
    cases hnet : net m with
    | response statusCode body =>
      rw [hnet] at hm
      simp only [candidateFails, Bool.and_eq_true, decide_eq_true_eq] at hm
      simp [tryModels, hnet, hm.1, hm.2, hrest]
    | requestException =>
      simp [tryModels, hnet, hrest]

/-! ## Claims -/

/-- C1: `generate_content` tries the candidates of `models_to_try` in order;
status 200 returns that candidate's body immediately (the source's success
test is exactly `status_code == 200`); a 429 status short-circuits to a
simulated response without attempting the remaining candidates; any other
status or transport error advances to the next candidate; if every
candidate fails without a 429, a simulated response is returned.  The
embedding is a total function because every exception path of the source is
caught, so the function never raises to its caller. -/
theorem C1_generate_content_candidate_order {β : Type}
    (net : String → CandidateResult β) (prompt m : String) (rest : List String)
    (statusCode : Nat) (body : β) :
    (net m = .response 200 body → tryModels net prompt (m :: rest) = ([m], .api body)) ∧
    (net m = .response 429 body →
      tryModels net prompt (m :: rest) = ([m], .simulated (get_simulated_response 0 50))) ∧
    (net m = .response statusCode body → statusCode ≠ 200 → statusCode ≠ 429 →
      tryModels net prompt (m :: rest) =
        (m :: (tryModels net prompt rest).1, (tryModels net prompt rest).2)) ∧
    (net m = .requestException →
      tryModels net prompt (m :: rest) =
        (m :: (tryModels net prompt rest).1, (tryModels net prompt rest).2)) ∧
    (generate_content net prompt = tryModels net prompt models_to_try) ∧
    ((∀ x ∈ models_to_try, candidateFails (net x) = true) →
      generate_content net prompt =
        (models_to_try, .simulated (get_simulated_response
          ((extractSolar prompt).elim 0 Int.ofNat)
          ((extractBattery prompt).elim 50 Int.ofNat)))) := by
  refine ⟨?_, ?_, ?_, ?_, rfl, ?_⟩
  · intro h; simp [tryModels, h]
  · intro h; simp [tryModels, h]
  · intro h h200 h429; simp [tryModels, h, h200, h429]
  · intro h; simp [tryModels, h]
  · intro h; exact tryModels_allFail net prompt models_to_try h

/-- Oracle: first candidate answers 503, second raises, third succeeds. -/
def netMixed : String → CandidateResult Nat := fun model =>
  if model = "gemini-1.5-flash" then .response 503 0
  else if model = "gemini-1.5-pro" then .requestException
  else .response 200 7

/-- Oracle: every candidate answers 429. -/
def netAll429 : String → CandidateResult Nat := fun _ => .response 429 0

/-- Oracle: every candidate raises a transport error. -/
def netAllRaise : String → CandidateResult Nat := fun _ => .requestException

theorem C1_witness :
    tryModels netMixed "p" ["gemini-pro"] = (["gemini-pro"], .api 7) ∧
    tryModels netAll429 "p" ["gemini-1.5-flash", "gemini-1.5-pro", "gemini-pro"] =
      (["gemini-1.5-flash"], .simulated (get_simulated_response 0 50)) ∧
    generate_content netAllRaise "p" =
      (models_to_try, .simulated (get_simulated_response
        ((extractSolar "p").elim 0 Int.ofNat)
        ((extractBattery "p").elim 50 Int.ofNat))) :=
  ⟨(C1_generate_content_candidate_order netMixed "p" "gemini-pro" [] 0 7).1 rfl,
   (C1_generate_content_candidate_order netAll429 "p" "gemini-1.5-flash"
      ["gemini-1.5-pro", "gemini-pro"] 0 0).2.1 rfl,
   (C1_generate_content_candidate_order netAllRaise "p" "x" [] 0 0).2.2.2.2.2 (by decide)⟩

/-- C2 counterexample: with a prompt carrying integer-rendered values 3500
and 75, a 429 on the first candidate yields the simulated response for the
*fixed defaults* `(0, 50)` — `_get_simulated_response()` is called with no
arguments on the 429 short-circuit (line 66) — which differs from the
simulated response for the parsed values, so the returned plan does not
reflect the values parsed from the prompt. -/
theorem C2_counterexample :
    generate_content netAll429 (samplePrompt "3500" "75") =
      (["gemini-1.5-flash"], .simulated (get_simulated_response 0 50)) ∧
    extractSolar (samplePrompt "3500" "75") = some 3500 ∧
    extractBattery (samplePrompt "3500" "75") = some 75 ∧
    get_simulated_response 0 50 ≠ get_simulated_response 3500 75 := by
  refine ⟨rfl, ?_, ?_, by decide⟩
  · decide
  · decide

/-- C2 amended: the simulated response is a deterministic function of the
numeric values parsed from the prompt *only on the all-candidates-failed
path*; the 429 short-circuit instead always returns the simulated response
for the fixed defaults `solar_watts = 0`, `battery_pct = 50`, ignoring the
prompt.  On each path the response is deterministic given the parsed
values. -/
theorem C2_simulated_response_inputs {β : Type}
    (net net' : String → CandidateResult β) (prompt prompt' : String) (body : β) :
    ((∀ x ∈ models_to_try, candidateFails (net x) = true) →
      generate_content net prompt =
        (models_to_try, .simulated (get_simulated_response
          ((extractSolar prompt).elim 0 Int.ofNat)
          ((extractBattery prompt).elim 50 Int.ofNat)))) ∧
    ((∀ x ∈ models_to_try, candidateFails (net x) = true) →
      (∀ x ∈ models_to_try, candidateFails (net' x) = true) →
      extractSolar prompt = extractSolar prompt' →
      extractBattery prompt = extractBattery prompt' →
      (generate_content net prompt).2 = (generate_content net' prompt').2) ∧
    (net "gemini-1.5-flash" = .response 429 body →
      generate_content net prompt = (["gemini-1.5-flash"], .simulated (get_simulated_response 0 50))) := by
  refine ⟨fun h => tryModels_allFail net prompt models_to_try h, ?_, ?_⟩
  · intro h h' hs hb
    unfold generate_content
    rw [tryModels_allFail net prompt models_to_try h,
      tryModels_allFail net' prompt' models_to_try h', hs, hb]
  · intro h
    simp [generate_content, models_to_try, tryModels, h]

theorem C2_witness :
    (generate_content netAllRaise (samplePrompt "1200" "90")).2 =
      (generate_content netAllRaise (samplePrompt "1200" "90")).2 ∧
    generate_content netAll429 (samplePrompt "1200" "90") =
      (["gemini-1.5-flash"], .simulated (get_simulated_response 0 50)) :=
  ⟨(C2_simulated_response_inputs netAllRaise netAllRaise (samplePrompt "1200" "90")
      (samplePrompt "1200" "90") 0).2.1 (by decide) (by decide) rfl rfl,
   (C2_simulated_response_inputs netAll429 netAll429 (samplePrompt "1200" "90")
      (samplePrompt "1200" "90") 0).2.2 rfl⟩

/-- C8: the rule-based simulated plan classifies solar production into four
bands with strict thresholds 100, 500 and 2000 W (a value exactly at a
threshold falls into the lower band); each band consistently determines the
period, the heavy-appliance power source and the recommendation text; for
`solarWatts = 3500`, `batteryPct = 75` the period is
"Peak Sun (High Production)" and the heavy-appliance source is
"Direct Solar" (the `Water Heater` and `Washing Machine` plan entries). -/
theorem C8_simulated_plan_bands (s b : Int) :
    (2000 < s → simPeriod s = "Peak Sun (High Production)" ∧
      simPowerSourceHeavy s = "Direct Solar" ∧
      simRecommendation s =
        "Excellent time for high-power appliances. Run water heater and washing machine now.") ∧
    (500 < s → s ≤ 2000 → simPeriod s = "Moderate Sun" ∧
      simPowerSourceHeavy s = "Direct Solar" ∧
      simRecommendation s = "Good time for medium-power appliances. Save heavy tasks if possible.") ∧
    (100 < s → s ≤ 500 → simPeriod s = "Low Sun" ∧
      simPowerSourceHeavy s = "Battery" ∧
      simRecommendation s = "Transition to battery power. Minimize non-essential usage.") ∧
    (s ≤ 100 → simPeriod s = "Night/No Sun" ∧
      simPowerSourceHeavy s = "Battery" ∧
      simRecommendation s = "Use only essential appliances. Preserve battery for overnight needs.") ∧
    simPeriod 100 = "Night/No Sun" ∧ simPeriod 500 = "Low Sun" ∧
    simPeriod 2000 = "Moderate Sun" ∧
    (get_simulated_response s b).recommendation_summary =
      simRecommendation s ++ " Current conditions: " ++ simPeriod s ++ ", Battery: " ++
        toString b ++ "%" ∧
    ((get_simulated_response s b).energy_allocation_plan.map PlanEntry.power_source =
      ["Solar/Battery", if s < 100 then "Battery" else "Solar",
        simPowerSourceHeavy s, simPowerSourceHeavy s, "Battery",
        if 100 < s then "Solar" else "Battery"]) ∧
    simPeriod 3500 = "Peak Sun (High Production)" ∧
    simPowerSourceHeavy 3500 = "Direct Solar" := by
  refine ⟨?_, ?_, ?_, ?_, by decide, by decide, by decide, rfl, rfl, by decide, by decide⟩
  · intro h
    refine ⟨?_, ?_, ?_⟩ <;> simp [simPeriod, simPowerSourceHeavy, simRecommendation, h]
  · intro h1 h2
    have hn : ¬ (2000 < s) := by omega
    refine ⟨?_, ?_, ?_⟩ <;> simp [simPeriod, simPowerSourceHeavy, simRecommendation, h1, hn]
  · intro h1 h2
    have hn : ¬ (2000 < s) := by omega
    have hn5 : ¬ (500 < s) := by omega
    refine ⟨?_, ?_, ?_⟩ <;>
      simp [simPeriod, simPowerSourceHeavy, simRecommendation, h1, hn, hn5]
  · intro h
    have hn : ¬ (2000 < s) := by omega
    have hn5 : ¬ (500 < s) := by omega
    have hn1 : ¬ (100 < s) := by omega
    refine ⟨?_, ?_, ?_⟩ <;>
      simp [simPeriod, simPowerSourceHeavy, simRecommendation, hn, hn5, hn1]

theorem C8_witness :
    (simPeriod 3500 = "Peak Sun (High Production)" ∧
      simPowerSourceHeavy 3500 = "Direct Solar" ∧
      simRecommendation 3500 =
        "Excellent time for high-power appliances. Run water heater and washing machine now.") ∧
    (simPeriod 2000 = "Moderate Sun" ∧
      simPowerSourceHeavy 2000 = "Direct Solar" ∧
      simRecommendation 2000 = "Good time for medium-power appliances. Save heavy tasks if possible.") ∧
    (simPeriod 500 = "Low Sun" ∧
      simPowerSourceHeavy 500 = "Battery" ∧
      simRecommendation 500 = "Transition to battery power. Minimize non-essential usage.") ∧
    (simPeriod 100 = "Night/No Sun" ∧
      simPowerSourceHeavy 100 = "Battery" ∧
      simRecommendation 100 = "Use only essential appliances. Preserve battery for overnight needs.") :=
  ⟨(C8_simulated_plan_bands 3500 75).1 (by decide),
   (C8_simulated_plan_bands 2000 75).2.1 (by decide) (by decide),
   (C8_simulated_plan_bands 500 75).2.2.1 (by decide) (by decide),
   (C8_simulated_plan_bands 100 75).2.2.2.1 (by decide)⟩

/-- C9: whenever the standardizer's model response cannot be parsed as JSON
(`json.JSONDecodeError`), or the parsed result is missing `canonical_name`
or `category` (the `ValueError` raised by the validation), the method
returns the sentinel
`{canonical_name: "Error processing JSON", category: "Error"}` instead of
raising past the stage (the embedding is total: the source catches these
exceptions at lines 75-79). -/
theorem C9_standardizer_sentinel (p : ParsedStd) :
    standardize_json (.responseText none) = ⟨"Error processing JSON", "Error"⟩ ∧
    (p.canonical_name = none ∨ p.category = none →
      standardize_json (.responseText (some p)) = ⟨"Error processing JSON", "Error"⟩) := by
  refine ⟨rfl, fun h => ?_⟩
  obtain ⟨n, c⟩ := p
  rcases h with h | h
  · subst h; cases c <;> rfl
  · subst h; cases n <;> rfl

theorem C9_witness :
    standardize_json (.responseText (some ⟨none, some "Food"⟩)) =
      ⟨"Error processing JSON", "Error"⟩ :=
  (C9_standardizer_sentinel ⟨none, some "Food"⟩).2 (Or.inl rfl)

/-- C3 counterexample: the canonical name "Coca-Cola, 0.5L, PET Bottle" is
present (case-insensitively) in the curated internal table, yet the
knowledge-retrieval step the pipeline actually runs
(`master_automation.py` layer 3) resolves it through the category-fallback
branch, not the internal-database branch: the inlined layer never consults
the internal table. -/
theorem C3_counterexample :
    lookup_internal_database "Coca-Cola, 0.5L, PET Bottle" =
      some (17 / 100, "Internal DB (EcoInvent)", "High") ∧
    layer3Retrieve "Coca-Cola, 0.5L, PET Bottle" "Beverage" =
      ⟨"Coca-Cola, 0.5L, PET Bottle", "Beverage", 5 / 10,
        "Category Fallback Heuristic", "Low"⟩ ∧
    ("Category Fallback Heuristic" : String) ≠ "Internal DB (EcoInvent)" :=
  ⟨rfl, rfl, by decide⟩

/-- C3 amended: the pipeline's knowledge-retrieval step
(`master_automation.py` lines 104-128, the code the API server executes)
orders its branches as hard-coded web-substring match first, then category
fallback; the internal-database branch is never consulted.  In
`KnowledgeRetriever.run_agentic_loop` the DB→web→fallback precedence is
requested from the Gemini planner via the prompt but not enforced by the
code: the loop executes whichever tool the planner names next. -/
theorem C3_retrieval_order (name category s : String)
    (planner : List (ToolCall × ToolOutput) → PlannerReply)
    (fuel : Nat) (history : List (ToolCall × ToolOutput)) (tc : ToolCall) :
    (strContains (pyLower name) "lay\x27s classic potato chips" = true →
      layer3Retrieve name category =
        ⟨name, category, 75 / 1000,
          "Simulated Web Scrape (GoodFood Institute Report)", "Medium"⟩) ∧
    (strContains (pyLower name) "lay\x27s classic potato chips" = false →
      layer3Retrieve name category =
        ⟨name, category,
          ((MOCK_CATEGORY_FALLBACKS.find? (fun p => p.1 == category)).map Prod.snd).getD 5,
          "Category Fallback Heuristic", "Low"⟩) ∧
    (planner history = .call tc →
      runAgenticLoop planner (fuel + 1) history =
        runAgenticLoop planner fuel ((tc, executeTool tc) :: history)) ∧
    (planner history = .text s →
      runAgenticLoop planner (fuel + 1) history = some (history.reverse, s)) := by
  refine ⟨fun h => ?_, fun h => ?_, fun h => ?_, fun h => ?_⟩
  · simp [layer3Retrieve, h]
  · simp [layer3Retrieve, h]
  · simp [runAgenticLoop, h]
  · simp [runAgenticLoop, h]

/-- A planner that immediately asks for the web tool on a name that is in
the internal database, then stops. -/
def plannerWebFirst : List (ToolCall × ToolOutput) → PlannerReply := fun history =>
  match history with
  | [] => .call (.webSearch "Coca-Cola, 0.5L, PET Bottle")
  | _ => .text "done"

theorem C3_witness :
    layer3Retrieve "Lay\x27s Classic Potato Chips (1 oz)" "Food" =
      ⟨"Lay\x27s Classic Potato Chips (1 oz)", "Food", 75 / 1000,
        "Simulated Web Scrape (GoodFood Institute Report)", "Medium"⟩ ∧
    layer3Retrieve "Quinoa Pack" "Food" =
      ⟨"Quinoa Pack", "Food",
        ((MOCK_CATEGORY_FALLBACKS.find? (fun p => p.1 == "Food")).map Prod.snd).getD 5,
        "Category Fallback Heuristic", "Low"⟩ ∧
    runAgenticLoop plannerWebFirst 2 [] =
      runAgenticLoop plannerWebFirst 1
        [(.webSearch "Coca-Cola, 0.5L, PET Bottle",
          executeTool (.webSearch "Coca-Cola, 0.5L, PET Bottle"))] :=
  ⟨(C3_retrieval_order "Lay\x27s Classic Potato Chips (1 oz)" "Food" "done"
      plannerWebFirst 0 [] (.lookupDB "")).1 (by decide),
   (C3_retrieval_order "Quinoa Pack" "Food" "done" plannerWebFirst 0 []
      (.lookupDB "")).2.1 (by decide),
   (C3_retrieval_order "x" "x" "done" plannerWebFirst 1 []
      (.webSearch "Coca-Cola, 0.5L, PET Bottle")).2.2.1 rfl⟩

/-- C7: for a canonical name unknown to both the internal table and the
web lookup, and a category outside the fixed fallback keys, the pipeline's
knowledge-retrieval step returns the generic category-average record
(`co2e_kg = 5.0`, from `fallback_values.get(category, 5.0)`) — a result,
not an error, and no exception (the embedding is a total function).  The
internal-table hypothesis `hdb` mirrors the claim's wording; the inlined
layer never consults that table, so the proof does not use it. -/
theorem C7_generic_category_fallback (name category : String)
    (hdb : lookup_internal_database name = none)
    (hweb : search_web_for_footprint_data name = none)
    (hcat : MOCK_CATEGORY_FALLBACKS.find? (fun p => p.1 == category) = none) :
    layer3Retrieve name category =
      ⟨name, category, 5, "Category Fallback Heuristic", "Low"⟩ := by
  have hc : strContains (pyLower name) "lay\x27s classic potato chips" = false := by
    cases hq : strContains (pyLower name) "lay\x27s classic potato chips" with
    | false => rfl
    | true => rw [search_web_for_footprint_data, hq] at hweb; simp at hweb
  simp [layer3Retrieve, hc, hcat]

theorem C7_witness :
    layer3Retrieve "Obscure Widget" "Gadget" =
      ⟨"Obscure Widget", "Gadget", 5, "Category Fallback Heuristic", "Low"⟩ :=
  C7_generic_category_fallback "Obscure Widget" "Gadget" rfl rfl rfl

/-! ## Rounding lemmas -/

theorem bankersRound_intCast (n : ℤ) : bankersRound (n : ℚ) = n := by
  unfold bankersRound
  rw [Int.fract_intCast, Int.floor_intCast]
  norm_num

theorem bankersRound_eq_floor (x : ℚ) (h : Int.fract x < 1 / 2) :
    bankersRound x = ⌊x⌋ := by
  unfold bankersRound
  rw [if_pos h]

theorem abs_bankersRound_sub_le (x : ℚ) : |(bankersRound x : ℚ) - x| ≤ 1 / 2 := by
  have h0 : (0 : ℚ) ≤ Int.fract x := Int.fract_nonneg x
  have h1 : Int.fract x < 1 := Int.fract_lt_one x
  have hfr : ((⌊x⌋ : ℤ) : ℚ) = x - Int.fract x := (Int.self_sub_fract x).symm
  unfold bankersRound
  split_ifs with hlt hgt hev
  · rw [abs_le]; constructor <;> linarith
  · rw [abs_le]; push_cast; constructor <;> linarith
  · rw [abs_le]; constructor <;> linarith
  · rw [abs_le]; push_cast; constructor <;> linarith

theorem abs_round4_sub_le (x : ℚ) : |round4 x - x| ≤ 1 / 20000 := by
  have h := abs_bankersRound_sub_le (x * 10000)
  unfold round4
  rw [show (bankersRound (x * 10000) : ℚ) / 10000 - x =
      ((bankersRound (x * 10000) : ℚ) - x * 10000) / 10000 by ring,
    abs_div, show |(10000 : ℚ)| = 10000 from by norm_num,
    show (1 : ℚ) / 20000 = (1 / 2) / 10000 by norm_num,
    div_le_div_iff_of_pos_right (by norm_num : (0 : ℚ) < 10000)]
  exact h

theorem round4_sum_bound (a b c : ℚ) :
    |round4 a + round4 b + round4 c - round4 (a + b + c)| ≤ 1 / 1000 := by
  have ha := abs_round4_sub_le a
  have hb := abs_round4_sub_le b
  have hc := abs_round4_sub_le c
  have hs := abs_round4_sub_le (a + b + c)
  have habs : ∀ u v : ℚ, |u + v| ≤ |u| + |v| := fun u v => abs_add u v
  have key : round4 a + round4 b + round4 c - round4 (a + b + c) =
      ((round4 a - a) + (round4 b - b)) + ((round4 c - c) +
        -(round4 (a + b + c) - (a + b + c))) := by ring
  rw [key]
  have t1 := habs ((round4 a - a) + (round4 b - b))
    ((round4 c - c) + -(round4 (a + b + c) - (a + b + c)))
  have t2 := habs (round4 a - a) (round4 b - b)
  have t3 := habs (round4 c - c) (-(round4 (a + b + c) - (a + b + c)))
  rw [abs_neg] at t3
  linarith

theorem round4_idem (x : ℚ) : round4 (round4 x) = round4 x := by
  unfold round4
  rw [div_mul_cancel₀ _ (by norm_num : (10000 : ℚ) ≠ 0), bankersRound_intCast]

theorem round4_eq_self_of_int (x : ℚ) (n : ℤ) (hx : x * 10000 = (n : ℚ)) :
    round4 x = x := by
  unfold round4
  rw [hx, bankersRound_intCast, eq_comm, eq_div_iff (by norm_num : (10000 : ℚ) ≠ 0)]
  exact hx

/-- C4: every `FootprintEstimate` produced by any success path of
`estimate` (components path, model-breakdown path, parse-failure fallback
path) has breakdown components that are 4-decimal-rounded values, and their
sum equals the rounded total to within `1/1000` — all three paths go
through `_calculate_from_components`, which rounds each component and the
total to 4 decimals. -/
theorem C4_breakdown_sum_within_tolerance (m : BreakdownOutcome) (rd : RetrievalData)
    (e : FootprintEstimate) (h : estimate m rd = .ok e) :
    round4 e.production = e.production ∧ round4 e.packaging = e.packaging ∧
    round4 e.transport = e.transport ∧
    |e.production + e.packaging + e.transport - e.total_co2e_kg| ≤ 1 / 1000 := by
  have key : ∀ (p k t : ℚ) (notes : Option String),
      withNotes (calculate_from_components p k t) notes = e →
      round4 e.production = e.production ∧ round4 e.packaging = e.packaging ∧
      round4 e.transport = e.transport ∧
      |e.production + e.packaging + e.transport - e.total_co2e_kg| ≤ 1 / 1000 := by
    intro p k t notes he
    subst he
    simp only [withNotes, calculate_from_components]
    exact ⟨round4_idem p, round4_idem k, round4_idem t, round4_sum_bound p k t⟩
  cases rd with
  | withComponents name c =>
    simp only [estimate, EstimateOutput.ok.injEq] at h
    exact key _ _ _ _ h
  | withTotal name total source =>
    cases m with
    | raised => simp [estimate] at h
    | cleanedText p =>
      cases p with
      | none =>
        simp only [estimate, EstimateOutput.ok.injEq] at h
        exact key _ _ _ _ h
      | some comps =>
        simp only [estimate, EstimateOutput.ok.injEq] at h
        exact key _ _ _ _ h
  | neither => simp [estimate] at h

theorem C4_witness :
    round4 (withNotes (calculate_from_components ((1 : ℚ) * (70 / 100)) (1 * (20 / 100))
        (1 * (10 / 100)))
        (some "Component breakdown used fallback percentages due to parsing error.")).production =
      (withNotes (calculate_from_components ((1 : ℚ) * (70 / 100)) (1 * (20 / 100))
        (1 * (10 / 100)))
        (some "Component breakdown used fallback percentages due to parsing error.")).production ∧
    round4 (withNotes (calculate_from_components ((1 : ℚ) * (70 / 100)) (1 * (20 / 100))
        (1 * (10 / 100)))
        (some "Component breakdown used fallback percentages due to parsing error.")).packaging =
      (withNotes (calculate_from_components ((1 : ℚ) * (70 / 100)) (1 * (20 / 100))
        (1 * (10 / 100)))
        (some "Component breakdown used fallback percentages due to parsing error.")).packaging ∧
    round4 (withNotes (calculate_from_components ((1 : ℚ) * (70 / 100)) (1 * (20 / 100))
        (1 * (10 / 100)))
        (some "Component breakdown used fallback percentages due to parsing error.")).transport =
      (withNotes (calculate_from_components ((1 : ℚ) * (70 / 100)) (1 * (20 / 100))
        (1 * (10 / 100)))
        (some "Component breakdown used fallback percentages due to parsing error.")).transport ∧
    |(withNotes (calculate_from_components ((1 : ℚ) * (70 / 100)) (1 * (20 / 100))
        (1 * (10 / 100)))
        (some "Component breakdown used fallback percentages due to parsing error.")).production +
      (withNotes (calculate_from_components ((1 : ℚ) * (70 / 100)) (1 * (20 / 100))
        (1 * (10 / 100)))
        (some "Component breakdown used fallback percentages due to parsing error.")).packaging +
      (withNotes (calculate_from_components ((1 : ℚ) * (70 / 100)) (1 * (20 / 100))
        (1 * (10 / 100)))
        (some "Component breakdown used fallback percentages due to parsing error.")).transport -
      (withNotes (calculate_from_components ((1 : ℚ) * (70 / 100)) (1 * (20 / 100))
        (1 * (10 / 100)))
        (some "Component breakdown used fallback percentages due to parsing error.")).total_co2e_kg| ≤
      1 / 1000 :=
  C4_breakdown_sum_within_tolerance (.cleanedText none) (.withTotal none 1 none) _ rfl

/-- C5 counterexample: on the components path the code rounds to 4 decimal
places, so a component with more than 4 decimals falsifies "total equal to
the sum / breakdown equal to the component values": for
`production_impact = 3/100000` (= 0.00003) the returned total and breakdown
are `0`, not `0.00003`. -/
theorem C5_counterexample :
    estimate (.cleanedText none)
        (.withComponents none ⟨some (3 / 100000), some 0, some 0⟩) =
      .ok ⟨0, 0, 0, 0, "Total = Production + Packaging + Transport", none⟩ ∧
    (3 / 100000 : ℚ) + 0 + 0 ≠ 0 := by
  have h0 : round4 (0 : ℚ) = 0 := round4_eq_self_of_int 0 0 (by norm_num)
  have h3 : round4 (3 / 100000 : ℚ) = 0 := by
    unfold round4
    rw [show (3 / 100000 : ℚ) * 10000 = 3 / 10 by norm_num]
    have hfr : Int.fract (3 / 10 : ℚ) = 3 / 10 := by
      rw [Int.fract_eq_self]
      constructor <;> norm_num
    have hfl : ⌊(3 / 10 : ℚ)⌋ = 0 := by
      rw [Int.floor_eq_zero_iff]
      constructor <;> norm_num
    rw [bankersRound_eq_floor _ (by rw [hfr]; norm_num), hfl]
    norm_num
  constructor
  · have hred : estimate (.cleanedText none)
        (.withComponents none ⟨some (3 / 100000), some 0, some 0⟩) =
        .ok ⟨round4 (3 / 100000 + 0 + 0), round4 (3 / 100000), round4 0, round4 0,
          "Total = Production + Packaging + Transport", none⟩ := rfl
    rw [hred, show (3 / 100000 : ℚ) + 0 + 0 = 3 / 100000 by ring, h3, h0]
  · norm_num

/-- C5 amended: on the components path `estimate` makes no model call and
returns the component values and their sum each rounded to 4 decimal
places (`_calculate_from_components`); for components with at most 4
decimals this is exact, and the documented scenario
`{production_impact: 5.5, packaging_impact: 0.3, transport_impact: 1.0}`
yields exactly `total_co2e_kg = 6.8` with breakdown `{5.5, 0.3, 1.0}`. -/
theorem C5_components_path (m m' : BreakdownOutcome) (name : Option String)
    (c : ComponentsDict) :
    estimate m (.withComponents name c) =
      .ok (withNotes (calculate_from_components
        (c.production_impact.getD 0) (c.packaging_impact.getD 0)
        (c.transport_impact.getD 0)) none) ∧
    estimate m (.withComponents name c) = estimate m' (.withComponents name c) ∧
    estimate m (.withComponents (some "T-Shirt (Cotton, Made in India)")
        ⟨some 5.5, some 0.3, some 1⟩) =
      .ok ⟨6.8, 5.5, 0.3, 1, "Total = Production + Packaging + Transport", none⟩ := by
  refine ⟨rfl, rfl, ?_⟩
  have h1 : round4 (5.5 : ℚ) = 5.5 := round4_eq_self_of_int _ 55000 (by norm_num)
  have h2 : round4 (0.3 : ℚ) = 0.3 := round4_eq_self_of_int _ 3000 (by norm_num)
  have h3 : round4 (1 : ℚ) = 1 := round4_eq_self_of_int _ 10000 (by norm_num)
  have ht : round4 (5.5 + 0.3 + 1 : ℚ) = 6.8 := by
    rw [round4_eq_self_of_int _ 68000 (by norm_num)]
    norm_num
  have hred : estimate m (.withComponents (some "T-Shirt (Cotton, Made in India)")
        ⟨some 5.5, some 0.3, some 1⟩) =
      .ok ⟨round4 (5.5 + 0.3 + 1), round4 5.5, round4 0.3, round4 1,
        "Total = Production + Packaging + Transport", none⟩ := rfl
  rw [hred, h1, h2, h3, ht]

/-- C6 counterexample: when the model call itself raises (the model is
unreachable — `self.model.generate_content` or `response.text` fail inside
`_breakdown_total_co2e`, which is called *outside* the `try` block of
`estimate`), the exception propagates past the stage boundary instead of
being replaced by the 70/20/10 fallback. -/
theorem C6_counterexample :
    estimate .raised (.withTotal (some "Sample Product") (75 / 1000)
      (some "Simulated Web Scrape (GoodFood Institute Report)")) = .raised := rfl

/-- C6 amended: on the total-only path, when the model's breakdown text
fails to parse (`json.JSONDecodeError`), the stage substitutes the fixed
70% / 20% / 10% split of the total and returns a result whose `notes` field
records that fallback percentages were used; but when the model call itself
raises (model unreachable), the exception propagates past the stage. -/
theorem C6_parse_failure_fallback (total : ℚ) (name source : Option String) :
    estimate (.cleanedText none) (.withTotal name total source) =
      .ok ⟨round4 total, round4 (total * (70 / 100)), round4 (total * (20 / 100)),
        round4 (total * (10 / 100)), "Total = Production + Packaging + Transport",
        some "Component breakdown used fallback percentages due to parsing error."⟩ ∧
    estimate .raised (.withTotal name total source) = .raised := by
  refine ⟨?_, rfl⟩
  have hred : estimate (.cleanedText none) (.withTotal name total source) =
      .ok ⟨round4 (total * (70 / 100) + total * (20 / 100) + total * (10 / 100)),
        round4 (total * (70 / 100)), round4 (total * (20 / 100)),
        round4 (total * (10 / 100)), "Total = Production + Packaging + Transport",
        some "Component breakdown used fallback percentages due to parsing error."⟩ := rfl
  rw [hred,
    show total * (70 / 100) + total * (20 / 100) + total * (10 / 100) = total by ring]

/-! ## Scanning lemmas for the prompt-extraction claim

These characterize `searchNumBetween` on prompts decomposed into concrete
template segments and parameterized numeric renderings.  A decimally
rendered number contributes only digit or `.` characters, and neither
search literal contains a digit or a dot, so no pattern occurrence can
start inside or overlap a rendered number. -/

/-- Characters a decimally-rendered non-negative float consists of. -/
def isDigitOrDot (c : Char) : Bool := c.isDigit || c == '.'

theorem matchAt_eq_none_of_not_prefix (lit suf s : List Char) (h : ¬ lit <+: s) :
    matchAt lit suf s = none := by
  unfold matchAt
  rw [if_neg (by rw [List.isPrefixOf_iff_prefix]; exact h)]

theorem searchNumBetween_cons_none (lit suf : List Char) (a : Char) (t : List Char)
    (h : matchAt lit suf (a :: t) = none) :
    searchNumBetween lit suf (a :: t) = searchNumBetween lit suf t := by
  simp [searchNumBetween, h]

/-- If the pattern matches at no position inside `A` (with `B` as the
continuation), the scan of `A ++ B` equals the scan of `B`. -/
theorem search_append_of_matchAt_none (lit suf A B : List Char)
    (h : ∀ i, i < A.length → matchAt lit suf (A.drop i ++ B) = none) :
    searchNumBetween lit suf (A ++ B) = searchNumBetween lit suf B := by
  induction A with
  | nil => rfl
  | cons a A ih =>
    have h0 : matchAt lit suf (a :: (A ++ B)) = none := by
      simpa using h 0 (Nat.succ_pos A.length)
    rw [List.cons_append, searchNumBetween_cons_none _ _ _ _ h0]
    exact ih (fun i hi => by
      simpa using h (i + 1) (by simp only [List.length_cons]; omega))

/-- A literal with no digit/dot characters cannot be a prefix of
`u ++ v :: w` when `u` is shorter than the literal and `v` is a digit or a
dot: the literal's character at position `u.length` would have to be `v`. -/
theorem not_prefix_cross (lit u : List Char) (v : Char) (w : List Char)
    (hlen : u.length < lit.length)
    (hlit : ∀ c ∈ lit, isDigitOrDot c = false) (hv : isDigitOrDot v = true) :
    ¬ lit <+: (u ++ v :: w) := by
  intro hp
  obtain ⟨t, ht⟩ := hp
  have hget : (u ++ v :: w)[u.length]? = some v := by
    rw [List.getElem?_append_right (le_refl u.length)]
    simp
  have hlitget : lit[u.length]? = some v := by
    have hleft : (lit ++ t)[u.length]? = lit[u.length]? := by
      rw [List.getElem?_append, if_pos hlen]
    rw [← hleft, ht, hget]
  have hmem : v ∈ lit := List.getElem?_mem hlitget
  rw [hlit v hmem] at hv
  exact Bool.false_ne_true hv

theorem prefix_of_prefix_append (lit u B : List Char) (hle : lit.length ≤ u.length)
    (h : lit <+: u ++ B) : lit <+: u := by
  rw [List.prefix_iff_eq_take] at h ⊢
  rwa [List.take_append_of_le_length hle] at h

/-- Skip a concrete segment `A₀` standing immediately before an occurrence
of the literal: the concrete check `hwin` rules out every start position
inside `A₀` (each such window fits inside `A₀ ++ lit`). -/
theorem search_skip_concrete (lit suf A₀ X : List Char)
    (hwin : ∀ i, i < A₀.length → lit.isPrefixOf ((A₀ ++ lit).drop i) = false) :
    searchNumBetween lit suf (A₀ ++ (lit ++ X)) = searchNumBetween lit suf (lit ++ X) := by
  apply search_append_of_matchAt_none
  intro i hi
  apply matchAt_eq_none_of_not_prefix
  rw [show A₀.drop i ++ (lit ++ X) = ((A₀ ++ lit).drop i) ++ X from by
    rw [List.drop_append_of_le_length (le_of_lt hi), List.append_assoc]]
  intro hp
  have hpre : lit <+: (A₀ ++ lit).drop i := by
    apply prefix_of_prefix_append _ _ _ _ hp
    rw [List.length_drop, List.length_append]
    omega
  have hb := List.isPrefixOf_iff_prefix.mpr hpre
  rw [hwin i hi] at hb
  exact Bool.false_ne_true hb

/-- Skip a concrete segment `S` whose continuation starts with a digit/dot
character: in-segment windows are ruled out by the concrete check `hfit`,
and windows overhanging into the continuation by `not_prefix_cross`. -/
theorem search_skip_concrete_before_digit (lit suf S R : List Char) (v : Char)
    (hfit : ∀ i, i < S.length → i + lit.length ≤ S.length →
      lit.isPrefixOf (S.drop i) = false)
    (hlit : ∀ c ∈ lit, isDigitOrDot c = false) (hv : isDigitOrDot v = true)
    (hR : R.head? = some v) :
    searchNumBetween lit suf (S ++ R) = searchNumBetween lit suf R := by
  obtain ⟨r, w, rfl⟩ : ∃ r w, R = r :: w := by
    cases R with
    | nil => exact absurd hR (by simp)
    | cons r w => exact ⟨r, w, rfl⟩
  have hrv : r = v := by simpa using hR
  subst hrv
  apply search_append_of_matchAt_none
  intro i hi
  apply matchAt_eq_none_of_not_prefix
  intro hp
  by_cases hc : i + lit.length ≤ S.length
  · have h1 : lit <+: S.drop i := by
      apply prefix_of_prefix_append _ _ _ _ hp
      rw [List.length_drop]
      omega
    have hb := List.isPrefixOf_iff_prefix.mpr h1
    rw [hfit i hi hc] at hb
    exact Bool.false_ne_true hb
  · exact not_prefix_cross lit (S.drop i) r w
      (by rw [List.length_drop]; omega) hlit hv hp

/-- Skip a run of digit/dot characters: the literal's first character is
not a digit or dot, so no window can start inside the run. -/
theorem search_digit_segment (lit suf S R : List Char)
    (hne : lit ≠ []) (hlit : ∀ c ∈ lit, isDigitOrDot c = false)
    (hS : ∀ c ∈ S, isDigitOrDot c = true) :
    searchNumBetween lit suf (S ++ R) = searchNumBetween lit suf R := by
  obtain ⟨l0, lrest, rfl⟩ : ∃ l0 lrest, lit = l0 :: lrest := by
    cases lit with
    | nil => exact absurd rfl hne
    | cons l0 lrest => exact ⟨l0, lrest, rfl⟩
  have hl0 : isDigitOrDot l0 = false := hlit l0 (List.mem_cons_self l0 lrest)
  induction S with
  | nil => rfl
  | cons c S ih =>
    have hc : isDigitOrDot c = true := hS c (List.mem_cons_self c S)
    have hm : matchAt (l0 :: lrest) suf (c :: (S ++ R)) = none := by
      apply matchAt_eq_none_of_not_prefix
      intro hp
      rw [List.cons_prefix_cons] at hp
      have : isDigitOrDot l0 = true := hp.1 ▸ hc
      rw [hl0] at this
      exact Bool.false_ne_true this
    rw [List.cons_append, searchNumBetween_cons_none _ _ _ _ hm]
    exact ih (fun x hx => hS x (List.mem_cons_of_mem _ hx))

theorem takeWhile_digits_append (ds : List Char) (x : Char) (t : List Char)
    (hds : ∀ c ∈ ds, c.isDigit = true) (hx : x.isDigit = false) :
    (ds ++ x :: t).takeWhile Char.isDigit = ds := by
  induction ds with
  | nil => simp [List.takeWhile_cons, hx]
  | cons d ds ih =>
    have hd := hds d (List.mem_cons_self d ds)
    simp [List.takeWhile_cons, hd,
      ih (fun c hc => hds c (List.mem_cons_of_mem _ hc))]

/-- At the occurrence of the literal itself, the pattern still fails when
the number is rendered with a decimal point: the greedy digit group stops
at the `.`, and the required suffix does not start with `.`. -/
theorem matchAt_designated (lit suf ds frest : List Char)
    (hds : ∀ c ∈ ds, c.isDigit = true) (hne : ds ≠ [])
    (s0 : Char) (srest : List Char) (hsuf : suf = s0 :: srest) (hs0 : s0 ≠ '.') :
    matchAt lit suf (lit ++ (ds ++ '.' :: frest)) = none := by
  have h1 : lit.isPrefixOf (lit ++ (ds ++ '.' :: frest)) = true :=
    List.isPrefixOf_iff_prefix.mpr (List.prefix_append _ _)
  have h2 : (lit ++ (ds ++ '.' :: frest)).drop lit.length = ds ++ '.' :: frest :=
    List.drop_left _ _
  have h3 : (ds ++ '.' :: frest).takeWhile Char.isDigit = ds :=
    takeWhile_digits_append _ _ _ hds (by decide)
  have h4 : ds.isEmpty = false := by
    cases ds with
    | nil => exact absurd rfl hne
    | cons _ _ => rfl
  have h5 : (ds ++ '.' :: frest).drop ds.length = '.' :: frest := List.drop_left _ _
  have h6 : suf.isPrefixOf ('.' :: frest) = false := by
    subst hsuf
    cases hq : (s0 :: srest).isPrefixOf ('.' :: frest) with
    | false => rfl
    | true =>
      have hq' := List.isPrefixOf_iff_prefix.mp hq
      rw [List.cons_prefix_cons] at hq'
      exact absurd hq'.1 hs0
  simp only [matchAt, h1, h2, h3, h4, h5, h6]
  simp

/-- Scan across `lit ++ ds ++ '.' :: fs ++ R` (the literal followed by a
decimally-rendered number): no match starts before or inside the number, so
the scan continues in `R`. -/
theorem search_lit_then_decimal (lit suf ds fs R : List Char)
    (hlitne : lit ≠ []) (hlit : ∀ c ∈ lit, isDigitOrDot c = false)
    (hne : ds ≠ []) (hds : ∀ c ∈ ds, c.isDigit = true)
    (hfs : ∀ c ∈ fs, c.isDigit = true)
    (s0 : Char) (srest : List Char) (hsuf : suf = s0 :: srest) (hs0 : s0 ≠ '.') :
    searchNumBetween lit suf (lit ++ (ds ++ '.' :: (fs ++ R))) =
      searchNumBetween lit suf R := by
  obtain ⟨d, ds', rfl⟩ : ∃ d ds', ds = d :: ds' := by
    cases ds with
    | nil => exact absurd rfl hne
    | cons d ds' => exact ⟨d, ds', rfl⟩
  have step1 : searchNumBetween lit suf (lit ++ ((d :: ds') ++ '.' :: (fs ++ R))) =
      searchNumBetween lit suf ((d :: ds') ++ '.' :: (fs ++ R)) := by
    apply search_append_of_matchAt_none
    intro i hi
    cases Nat.eq_zero_or_pos i with
    | inl h0 =>
      subst h0
      simpa using matchAt_designated lit suf (d :: ds') (fs ++ R) hds hne s0 srest hsuf hs0
    | inr hpos =>
      apply matchAt_eq_none_of_not_prefix
      exact not_prefix_cross lit (lit.drop i) d (ds' ++ '.' :: (fs ++ R))
        (by rw [List.length_drop]; omega) hlit
        (by simp [isDigitOrDot, hds d (List.mem_cons_self d ds')])
  have step2 : searchNumBetween lit suf ((d :: ds') ++ '.' :: (fs ++ R)) =
      searchNumBetween lit suf R := by
    rw [show (d :: ds') ++ '.' :: (fs ++ R) = ((d :: ds') ++ '.' :: fs) ++ R from by simp]
    apply search_digit_segment lit suf _ R hlitne hlit
    intro c hc
    rcases List.mem_append.mp hc with h | h
    · rcases List.mem_cons.mp h with h | h
      · subst h; simp [isDigitOrDot, hds c (List.mem_cons_self c ds')]
      · simp [isDigitOrDot, hds c (List.mem_cons_of_mem _ h)]
    · rcases List.mem_cons.mp h with h | h
      · subst h; rfl
      · simp [isDigitOrDot, hfs c h]
  rw [step1, step2]

/-! ### Concrete decomposition segments for the REST-path prompt

`samplePrompt solarStr batteryStr` splits as
`segA ++ solarLit ++ solarStr ++ segB ++ batteryLit ++ batteryStr ++ segC`
when the rendered values are substituted; `solarLit` and `batteryLit` are
exactly the literal parts of the two regex patterns. -/

def solarLit : List Char := "Solar Panel Production: ".toList

def batteryLit : List Char := "Current Battery Charge: ".toList

def segA : String :=
  "Act as an expert AI Solar Energy Management Agent.\n        \n        Current State at "
    ++ "2025-01-01 12:00:00"
    ++ ":\n        - "

def segB : String :=
  " Watts\n        - Battery Capacity: "
    ++ "10000"
    ++ " Wh\n        - "

def segC : String :=
  "% ("
    ++ "7500.00"
    ++ " Wh)\n\n        List of available electrical appliances and their power draw:\n        "
    ++ defaultAppliancesJson
    ++ "\n\n        Previous Energy Log (last 3 entries):\n        "
    ++ sampleLogJson
    ++ "\n\n        Task:\n        Provide a detailed energy management plan in a structured JSON format. \n        \n        IMPORTANT: Respond ONLY with valid JSON, no other text or explanations.\n        \n        The JSON should include:\n        1.  `recommendation_summary`: A brief, actionable summary.\n        2.  `energy_allocation_plan`: A list of dictionaries, where each dictionary contains `appliance`, `time_to_run`, `power_source` (Direct Solar or Battery), and `priority` (Essential, High, Medium, Low).\n        3.  `battery_management`: Specific instructions on when to charge or discharge the battery.\n        4.  `alerts`: Any important alerts for the user (e.g., \"Low production forecast\", \"Excess energy available\").\n        \n        Prioritize running high-power appliances directly from solar during peak production.\n        Use the battery for essential loads when solar production is low or at night.\n        Ensure the battery is preserved for essential needs."

set_option maxRecDepth 4096 in
/-- The REST-path prompt decomposes around the two regex literals. -/
theorem samplePrompt_decomp (sv bv : List Char) :
    (samplePrompt ⟨sv⟩ ⟨bv⟩).data =
      segA.data ++ (solarLit ++ (sv ++ (segB.data ++ (batteryLit ++ (bv ++ segC.data))))) := by
  simp only [samplePrompt, create_prompt, segA, segB, segC, solarLit, batteryLit,
    String.toList, String.data_append, List.append_assoc]

set_option maxRecDepth 20000 in
/-- C10: the extraction patterns in `generate_content`'s all-failed
fallback match only integer-formatted values (`(\d+)` immediately followed
by " Watts" resp. "%"); for every prompt in which the solar and battery
values are rendered with a decimal point — as the REST endpoint produces,
since it coerces both inputs to `float` before the f-string renders them —
both extractions fail, the defaults `solarWatts = 0`, `batteryPct = 50`
apply, and the simulated plan is the "Night/No Sun" plan regardless of the
actual inputs.  The prompt is quantified over all decimal renderings
`sInt.sFrac` / `bInt.bFrac` of the two values within the default REST
configuration (`hdecomp`); the last two conjuncts show the same prompt with
integer-rendered values does match. -/
theorem C10_decimal_rendering_defaults
    (sInt sFrac bInt bFrac : List Char) (prompt : String)
    (hsne : sInt ≠ []) (hbne : bInt ≠ [])
    (hs1 : ∀ c ∈ sInt, c.isDigit = true) (hs2 : ∀ c ∈ sFrac, c.isDigit = true)
    (hb1 : ∀ c ∈ bInt, c.isDigit = true) (hb2 : ∀ c ∈ bFrac, c.isDigit = true)
    (hdecomp : prompt.data =
      segA.data ++ (solarLit ++ (sInt ++ '.' :: (sFrac ++
        (segB.data ++ (batteryLit ++ (bInt ++ '.' :: (bFrac ++ segC.data)))))))) :
    extractSolar prompt = none ∧ extractBattery prompt = none ∧
    (∀ net : String → CandidateResult Nat,
      (∀ x ∈ models_to_try, candidateFails (net x) = true) →
      generate_content net prompt =
        (models_to_try, .simulated (get_simulated_response 0 50))) ∧
    simPeriod 0 = "Night/No Sun" ∧
    extractSolar (samplePrompt "3500" "75") = some 3500 ∧
    extractBattery (samplePrompt "3500" "75") = some 75 := by
  obtain ⟨s0, srest, rfl⟩ : ∃ s0 srest, sInt = s0 :: srest := by
    cases sInt with
    | nil => exact absurd rfl hsne
    | cons s0 srest => exact ⟨s0, srest, rfl⟩
  obtain ⟨b0, brest, rfl⟩ : ∃ b0 brest, bInt = b0 :: brest := by
    cases bInt with
    | nil => exact absurd rfl hbne
    | cons b0 brest => exact ⟨b0, brest, rfl⟩
  have hsolarlit_ne : solarLit ≠ [] := by decide
  have hsolarlit : ∀ c ∈ solarLit, isDigitOrDot c = false := by decide
  have hbatlit_ne : batteryLit ≠ [] := by decide
  have hbatlit : ∀ c ∈ batteryLit, isDigitOrDot c = false := by decide
  have hsAll : ∀ c ∈ (s0 :: srest) ++ '.' :: sFrac, isDigitOrDot c = true := by
    intro c hc
    rcases List.mem_append.mp hc with h | h
    · simp [isDigitOrDot, hs1 c h]
    · rcases List.mem_cons.mp h with h | h
      · subst h; rfl
      · simp [isDigitOrDot, hs2 c h]
  have hbAll : ∀ c ∈ (b0 :: brest) ++ '.' :: bFrac, isDigitOrDot c = true := by
    intro c hc
    rcases List.mem_append.mp hc with h | h
    · simp [isDigitOrDot, hb1 c h]
    · rcases List.mem_cons.mp h with h | h
      · subst h; rfl
      · simp [isDigitOrDot, hb2 c h]
  have hsolar : extractSolar prompt = none := by
    have e0 : extractSolar prompt =
        searchNumBetween solarLit " Watts".toList prompt.data := rfl
    rw [e0, hdecomp]
    rw [search_skip_concrete solarLit _ segA.data _ (by decide)]
    rw [search_lit_then_decimal solarLit " Watts".toList (s0 :: srest) sFrac _
      hsolarlit_ne hsolarlit (by simp) hs1 hs2 ' ' "Watts".toList rfl (by decide)]
    rw [← List.append_assoc]
    rw [search_skip_concrete_before_digit solarLit " Watts".toList
      (segB.data ++ batteryLit) _ b0 (by decide) hsolarlit
      (by simp [isDigitOrDot, hb1 b0 (List.mem_cons_self b0 brest)]) (by simp)]
    rw [show (b0 :: brest) ++ '.' :: (bFrac ++ segC.data) =
      ((b0 :: brest) ++ '.' :: bFrac) ++ segC.data from by simp]
    rw [search_digit_segment solarLit " Watts".toList _ segC.data
      hsolarlit_ne hsolarlit hbAll]
    decide
  have hbattery : extractBattery prompt = none := by
    have e0 : extractBattery prompt =
        searchNumBetween batteryLit "%".toList prompt.data := rfl
    rw [e0, hdecomp, ← List.append_assoc]
    rw [search_skip_concrete_before_digit batteryLit "%".toList
      (segA.data ++ solarLit) _ s0 (by decide) hbatlit
      (by simp [isDigitOrDot, hs1 s0 (List.mem_cons_self s0 srest)]) (by simp)]
    rw [show (s0 :: srest) ++ '.' :: (sFrac ++
        (segB.data ++ (batteryLit ++ ((b0 :: brest) ++ '.' :: (bFrac ++ segC.data))))) =
      ((s0 :: srest) ++ '.' :: sFrac) ++
        (segB.data ++ (batteryLit ++ ((b0 :: brest) ++ '.' :: (bFrac ++ segC.data))))
      from by simp]
    rw [search_digit_segment batteryLit "%".toList _ _ hbatlit_ne hbatlit hsAll]
    rw [search_skip_concrete batteryLit _ segB.data _ (by decide)]
    rw [search_lit_then_decimal batteryLit "%".toList (b0 :: brest) bFrac segC.data
      hbatlit_ne hbatlit (by simp) hb1 hb2 '%' [] rfl (by decide)]
    decide
  refine ⟨hsolar, hbattery, ?_, rfl, by decide, by decide⟩
  intro net hf
  have h := tryModels_allFail net prompt models_to_try hf
  rw [hsolar, hbattery] at h
  simpa [generate_content] using h

set_option maxRecDepth 20000 in
theorem C10_witness :
    extractSolar (samplePrompt "3500.0" "75.0") = none ∧
    extractBattery (samplePrompt "3500.0" "75.0") = none ∧
    generate_content netAllRaise (samplePrompt "3500.0" "75.0") =
      (models_to_try, .simulated (get_simulated_response 0 50)) ∧
    simPeriod 0 = "Night/No Sun" := by
  have hd : (samplePrompt "3500.0" "75.0").data =
      segA.data ++ (solarLit ++ ("3500".toList ++ '.' :: ("0".toList ++
        (segB.data ++ (batteryLit ++ ("75".toList ++ '.' :: ("0".toList ++ segC.data))))))) := by
    rw [show ("3500.0" : String) = ⟨"3500".toList ++ '.' :: "0".toList⟩ from by decide,
      show ("75.0" : String) = ⟨"75".toList ++ '.' :: "0".toList⟩ from by decide,
      samplePrompt_decomp]
    simp [List.append_assoc]
  have h := C10_decimal_rendering_defaults "3500".toList "0".toList "75".toList "0".toList
    (samplePrompt "3500.0" "75.0") (by decide) (by decide) (by decide) (by decide)
    (by decide) (by decide) hd
  exact ⟨h.1, h.2.1, h.2.2.1 netAllRaise (by decide), h.2.2.2.1⟩

end Urjamitra
